import Mathlib

/-!
Verification of the data-engineering coursework scripts
(`pipeline.py`, `ingest_homework_data.py`, `homework_queries.py`)
against their natural-language specification.

The Python sources are shallowly embedded: dataframes become lists of
records, the database becomes an explicit state, SQL queries become list
computations, and fatal Python errors become `Except` values.
-/

namespace Zoomcamp

/-! ## Pipeline runner (`docker-sql/pipeline/pipeline.py`)

The script reads `sys.argv[1]`, converts it with `int(...)`, builds a fixed
12-row dataframe of month/num_passengers, filters it by the month, prints
the filtered subset, and writes the **unfiltered** dataframe to
`output_{month}.parquet`. -/

/-- One row of the hardcoded dataframe `df` in `pipeline.py`. -/
structure MonthRow where
  month : Int
  num_passengers : Int
deriving DecidableEq, Repr

/-- The fixed dataframe built in `pipeline.py`:
`month` 1..12, `num_passengers` 10..120. -/
def monthTable : List MonthRow :=
  [⟨1, 10⟩, ⟨2, 20⟩, ⟨3, 30⟩, ⟨4, 40⟩, ⟨5, 50⟩, ⟨6, 60⟩,
   ⟨7, 70⟩, ⟨8, 80⟩, ⟨9, 90⟩, ⟨10, 100⟩, ⟨11, 110⟩, ⟨12, 120⟩]

/-- `df[df['month'] == month]`: the printed filtered subset. -/
def filteredMonth (m : Int) : List MonthRow :=
  monthTable.filter (fun r => decide (r.month = m))

/-- The output path `f"01-docker-terraform/docker-sql/pipeline/output_{month}.parquet"`. -/
def outputName (m : Int) : String :=
  "01-docker-terraform/docker-sql/pipeline/output_" ++ toString m ++ ".parquet"

/-- The filesystem visible to the pipeline script: file name to file
content (lists of `MonthRow`, the only content this script writes). -/
def FileSys : Type := List (String × List MonthRow)

/-- Writing a file overwrites any existing file of the same name. -/
def fsWrite (fs : FileSys) (nm : String) (c : List MonthRow) : FileSys :=
  (nm, c) :: fs

/-- Reading a file returns the most recently written content. -/
def fsRead (fs : FileSys) (nm : String) : Option (List MonthRow) :=
  (List.find? (fun p => p.1 == nm) fs).map (fun p => p.2)

/-- What the script prints and returns once the month argument parsed. -/
structure PipelineOutput where
  printedHead : List MonthRow
  printedSubset : List MonthRow
deriving DecidableEq, Repr

/-- The body of `pipeline.py` after `month = int(sys.argv[1])` succeeded:
build `df`, print `df.head()`, filter, print the subset, write the
full `df` to `output_{month}.parquet`. -/
def pipelineWithMonth (m : Int) (fs : FileSys) : PipelineOutput × FileSys :=
  let df := monthTable
  let df_month := df.filter (fun r => decide (r.month = m))
  (⟨df.take 5, df_month⟩, fsWrite fs (outputName m) df)

/-- The two fatal, unhandled errors of `pipeline.py`:
`sys.argv[1]` absent (IndexError) or non-numeric (ValueError). -/
inductive PipelineError where
  | indexError : PipelineError
  | valueError : PipelineError
deriving DecidableEq, Repr

/-- Model of Python `int(s)` on strings: optional surrounding whitespace,
an optional sign, then one or more decimal digits; anything else raises
`ValueError`, modelled as `none`. -/
def pyIntParse (s : String) : Option Int :=
  let cs := (s.toList.dropWhile Char.isWhitespace).reverse.dropWhile Char.isWhitespace |>.reverse
  match cs with
  | [] => none
  | c :: rest =>
    let signed : Int × List Char :=
      if c = '-' then (-1, rest) else if c = '+' then (1, rest) else (1, c :: rest)
    if signed.2 ≠ [] ∧ signed.2.all Char.isDigit then
      some (signed.1 * Int.ofNat (signed.2.foldl (fun acc d => 10 * acc + (d.toNat - 48)) 0))
    else none

/-- The whole run of `pipeline.py` on an argument vector: argument lookup
and parse first (each failure is fatal and happens before any write),
then the main body. -/
def runPipeline (argv : List String) (fs : FileSys) :
    Except PipelineError PipelineOutput × FileSys :=
  match argv[1]? with
  | none => (Except.error PipelineError.indexError, fs)
  | some s =>
    match pyIntParse s with
    | none => (Except.error PipelineError.valueError, fs)
    | some m =>
      let r := pipelineWithMonth m fs
      (Except.ok r.1, r.2)

/-! ## Data model shared by the ingestion and query scripts

The trip parquet file and the zone CSV are loaded verbatim; we model the
columns the queries use. Timestamps are a calendar date plus a
time-of-day; money and distances are rationals. -/

/-- A calendar date, as produced by SQL `DATE(...)`. -/
structure Date where
  year : Int
  month : Int
  day : Int
deriving DecidableEq, Repr

/-- Lexicographic strict order on dates. -/
def Date.ltb (a b : Date) : Bool :=
  decide (a.year < b.year) ||
    (decide (a.year = b.year) &&
      (decide (a.month < b.month) ||
        (decide (a.month = b.month) && decide (a.day < b.day))))

/-- Lexicographic order on dates. -/
def Date.leb (a b : Date) : Bool :=
  Date.ltb a b || decide (a = b)

/-- A timestamp: the calendar date and the second of that day.
A SQL date literal used in a timestamp comparison means midnight. -/
structure Timestamp where
  date : Date
  sec : Nat
deriving DecidableEq, Repr

/-- Strict order on timestamps: date lexicographically, then second. -/
def Timestamp.ltb (a b : Timestamp) : Bool :=
  Date.ltb a.date b.date || (decide (a.date = b.date) && decide (a.sec < b.sec))

/-- Order on timestamps. -/
def Timestamp.leb (a b : Timestamp) : Bool :=
  Timestamp.ltb a b || decide (a = b)

/-- One row of the green-taxi trip file, restricted to the columns the
homework queries read. -/
structure Trip where
  lpep_pickup_datetime : Timestamp
  trip_distance : ℚ
  PULocationID : Int
  DOLocationID : Int
  total_amount : ℚ
  tip_amount : ℚ
deriving DecidableEq, Repr

/-- One row of `taxi_zone_lookup.csv`. -/
structure ZoneRow where
  LocationID : Int
  Borough : String
  zoneName : String
  service_zone : String
deriving DecidableEq, Repr

/-! ## Ingestion script (`homework01/ingest_homework_data.py`)

The script reads `green_tripdata_2025-11.parquet` (fatal if missing),
writes table `green_taxi_data` with `if_exists='replace'`, then reads
`taxi_zone_lookup.csv` (fatal if missing) and writes table `zones` with
`if_exists='replace'`. There is no transaction spanning the two loads. -/

/-- The database state the two homework scripts touch: the two destination
tables, each absent (`none`) or holding its rows. -/
structure Database where
  green_taxi_data : Option (List Trip)
  zones : Option (List ZoneRow)
deriving DecidableEq, Repr

/-- The fatal errors of the ingestion script: a source file missing or
unreadable. Each aborts the run uncaught. -/
inductive IngestError where
  | tripFileMissing : IngestError
  | zoneFileMissing : IngestError
deriving DecidableEq, Repr

/-- One run of the ingestion script. The source files are given as
`Option` (present with contents, or missing). Steps in source order:
read the parquet file, `to_sql(..., if_exists='replace')` into
`green_taxi_data`, read the CSV, `to_sql(..., if_exists='replace')` into
`zones`. The returned database is the state when the process exits,
whether or not it errored. -/
def ingestRun (tripFile : Option (List Trip)) (zoneFile : Option (List ZoneRow))
    (db : Database) : Except IngestError Unit × Database :=
  match tripFile with
  | none => (Except.error IngestError.tripFileMissing, db)
  | some trips =>
    let db1 : Database := { db with green_taxi_data := some trips }
    match zoneFile with
    | none => (Except.error IngestError.zoneFileMissing, db1)
    | some zs => (Except.ok (), { db1 with zones := some zs })

/-- Row count of a table, 0 when absent. -/
def tableRowCount (t : Option (List α)) : Nat := (t.getD []).length

/-! ## Query script (`homework01/homework_queries.py`)

SQL building blocks: `MAX`/`SUM` aggregation, `GROUP BY`, and
`ORDER BY ... DESC` implemented as `insertionSort` with a descending
relation, `LIMIT n` as `take n`. -/

/-- SQL `MAX` over a (nonempty) list of values; 0 on the empty list, which
never arises from a `GROUP BY` group. -/
def maxOf : List ℚ → ℚ
  | [] => 0
  | [x] => x
  | x :: y :: t => max x (maxOf (y :: t))

/-- SQL `SUM` over a list of values. -/
def sumOf (l : List ℚ) : ℚ := l.sum

/-- SQL `GROUP BY key` with a single aggregated value column: one output
row per distinct key, carrying the aggregate of the `val` column over that
key's group. -/
def groupAgg [DecidableEq κ] (key : α → κ) (val : α → ℚ) (agg : List ℚ → ℚ)
    (l : List α) : List (κ × ℚ) :=
  ((l.map key).dedup).map
    (fun k => (k, agg ((l.filter (fun x => decide (key x = k))).map val)))

/-- SQL `ORDER BY f(...) DESC`. -/
def sortByDesc (f : α → ℚ) (l : List α) : List α :=
  List.insertionSort (fun a b => f b ≤ f a) l

/-- Midnight, 2025-11-01 (`'2025-11-01'` as a timestamp bound). -/
def nov1ts : Timestamp := ⟨⟨2025, 11, 1⟩, 0⟩

/-- Midnight, 2025-12-01 (`'2025-12-01'` as a timestamp bound). -/
def dec1ts : Timestamp := ⟨⟨2025, 12, 1⟩, 0⟩

/-- The date 2025-11-01. -/
def nov1d : Date := ⟨2025, 11, 1⟩

/-- The date 2025-11-18. -/
def nov18d : Date := ⟨2025, 11, 18⟩

/-- The date 2025-12-01. -/
def dec1d : Date := ⟨2025, 12, 1⟩

/-- The `WHERE` clause of Q3: pickup within November 2025 and
`trip_distance <= 1`. -/
def q3pred (t : Trip) : Bool :=
  Timestamp.leb nov1ts t.lpep_pickup_datetime &&
    Timestamp.ltb t.lpep_pickup_datetime dec1ts &&
    decide (t.trip_distance ≤ 1)

/-- Q3: `SELECT COUNT(*) ... WHERE ...` — a single-row result holding the
count, even when the count is 0. -/
def q3 (trips : List Trip) : List Nat :=
  [trips.countP q3pred]

/-- The rows Q4 ranges over: `WHERE trip_distance < 100`. -/
def q4qual (trips : List Trip) : List Trip :=
  trips.filter (fun t => decide (t.trip_distance < 100))

/-- Q4's `GROUP BY DATE(lpep_pickup_datetime)` with `MAX(trip_distance)`. -/
def q4groups (trips : List Trip) : List (Date × ℚ) :=
  groupAgg (fun t => t.lpep_pickup_datetime.date) (fun t => t.trip_distance)
    maxOf (q4qual trips)

/-- Q4: per-day maximum distance among trips of distance < 100,
`ORDER BY max_distance DESC LIMIT 1`. -/
def q4 (trips : List Trip) : List (Date × ℚ) :=
  (sortByDesc Prod.snd (q4groups trips)).take 1

/-- The `JOIN zones z ON g."PULocationID" = z."LocationID"` of Q5,
then Q5's `WHERE DATE(g.lpep_pickup_datetime) = '2025-11-18'`. -/
def q5rows (trips : List Trip) (zs : List ZoneRow) : List (Trip × ZoneRow) :=
  (trips.flatMap (fun g =>
      (zs.filter (fun z => decide (z.LocationID = g.PULocationID))).map
        (fun z => (g, z)))).filter
    (fun p => decide (p.1.lpep_pickup_datetime.date = nov18d))

/-- Q5's `GROUP BY z."Zone"` with `SUM(g.total_amount)`. -/
def q5groups (trips : List Trip) (zs : List ZoneRow) : List (String × ℚ) :=
  groupAgg (fun p => p.2.zoneName) (fun p => p.1.total_amount) sumOf
    (q5rows trips zs)

/-- Q5: top-5 pickup zones by summed total amount on 2025-11-18,
`ORDER BY total_sum DESC LIMIT 5`. -/
def q5 (trips : List Trip) (zs : List ZoneRow) : List (String × ℚ) :=
  (sortByDesc Prod.snd (q5groups trips zs)).take 5

/-- The double join of Q6 (pickup zone and dropoff zone both matched in
`zones`), then Q6's `WHERE`: pickup zone named East Harlem North and
pickup date within November 2025. -/
def q6rows (trips : List Trip) (zs : List ZoneRow) :
    List (Trip × ZoneRow × ZoneRow) :=
  (trips.flatMap (fun g =>
      (zs.filter (fun z => decide (z.LocationID = g.PULocationID))).flatMap
        (fun pu =>
          (zs.filter (fun z => decide (z.LocationID = g.DOLocationID))).map
            (fun dz => (g, pu, dz))))).filter
    (fun r => decide (r.2.1.zoneName = "East Harlem North") &&
      Date.leb nov1d r.1.lpep_pickup_datetime.date &&
      Date.ltb r.1.lpep_pickup_datetime.date dec1d)

/-- Q6's `GROUP BY do_zone."Zone"` with `MAX(g.tip_amount)`. -/
def q6groups (trips : List Trip) (zs : List ZoneRow) : List (String × ℚ) :=
  groupAgg (fun r => r.2.2.zoneName) (fun r => r.1.tip_amount) maxOf
    (q6rows trips zs)

/-- Q6: top-5 dropoff zones by maximum tip,
`ORDER BY max_tip DESC LIMIT 5`. -/
def q6 (trips : List Trip) (zs : List ZoneRow) : List (String × ℚ) :=
  (sortByDesc Prod.snd (q6groups trips zs)).take 5

/-- The four queries hardcoded in `homework_queries.py`'s `main`. -/
inductive QueryId where
  | q3 : QueryId
  | q4 : QueryId
  | q5 : QueryId
  | q6 : QueryId
deriving DecidableEq, Repr

/-- A query's tabular result, unified over the four result shapes. -/
inductive QueryResult where
  | counts : List Nat → QueryResult
  | dayRows : List (Date × ℚ) → QueryResult
  | zoneRows : List (String × ℚ) → QueryResult
deriving DecidableEq, Repr

/-- Executing one of the hardcoded queries against the current table
contents. -/
def execQuery (q : QueryId) (trips : List Trip) (zs : List ZoneRow) :
    QueryResult :=
  match q with
  | QueryId.q3 => QueryResult.counts (q3 trips)
  | QueryId.q4 => QueryResult.dayRows (q4 trips)
  | QueryId.q5 => QueryResult.zoneRows (q5 trips zs)
  | QueryId.q6 => QueryResult.zoneRows (q6 trips zs)

/-- What `run_query` prints: first the SQL text of the query, then its
tabular result. -/
inductive Event where
  | printQuery : QueryId → Event
  | printResult : QueryId → QueryResult → Event
deriving DecidableEq, Repr

/-- One `run_query(engine, n, description, q)` call: print the query, run
it via `pd.read_sql`, print the result. -/
def runQuery (q : QueryId) (trips : List Trip) (zs : List ZoneRow) :
    List Event :=
  [Event.printQuery q, Event.printResult q (execQuery q trips zs)]

/-- The `main()` of `homework_queries.py`: the `run_query` calls in source
order, against one database state. -/
def mainEvents (trips : List Trip) (zs : List ZoneRow) : List Event :=
  runQuery QueryId.q3 trips zs ++ runQuery QueryId.q4 trips zs ++
    runQuery QueryId.q5 trips zs ++ runQuery QueryId.q6 trips zs

/-- Recognize a print-the-SQL event. -/
def isQueryPrint : Event → Bool
  | Event.printQuery _ => true
  | Event.printResult _ _ => false

/-- The sequence of queries a trace executes, in order. -/
def executedQueries (evs : List Event) : List QueryId :=
  evs.filterMap (fun e =>
    match e with
    | Event.printQuery q => some q
    | Event.printResult _ _ => none)

/-- A concrete trip of distance 150, used to exercise Q4's distance cutoff. -/
def sampleLongTrip : Trip :=
  { lpep_pickup_datetime := ⟨⟨2025, 11, 5⟩, 3600⟩
    trip_distance := 150
    PULocationID := 74
    DOLocationID := 75
    total_amount := 300
    tip_amount := 20 }

/-- A concrete trip of distance 5, not matching Q3's `WHERE` clause. -/
def sampleMediumTrip : Trip :=
  { lpep_pickup_datetime := ⟨⟨2025, 11, 10⟩, 7200⟩
    trip_distance := 5
    PULocationID := 74
    DOLocationID := 75
    total_amount := 25
    tip_amount := 3 }

end Zoomcamp

namespace Zoomcamp

/-! ## Helper lemmas -/

/-- `maxOf` of a nonempty list is one of its elements. -/
theorem maxOf_mem : ∀ {l : List ℚ}, l ≠ [] → maxOf l ∈ l
  | [], h => absurd rfl h
  | [x], _ => by simp [maxOf]
  | x :: y :: t, _ => by
    rcases le_total x (maxOf (y :: t)) with hle | hge
    · rw [maxOf, max_eq_right hle]
      exact List.mem_cons_of_mem x (maxOf_mem (List.cons_ne_nil y t))
    · rw [maxOf, max_eq_left hge]
      exact List.mem_cons_self x (y :: t)

/-- Every element of a list is at most its `maxOf`. -/
theorem le_maxOf : ∀ {l : List ℚ} {x : ℚ}, x ∈ l → x ≤ maxOf l
  | [], _, h => absurd h (List.not_mem_nil _)
  | [y], x, h => by
    rw [List.mem_singleton] at h
    simp [maxOf, h]
  | y :: z :: t, x, h => by
    rw [maxOf]
    rcases List.mem_cons.mp h with rfl | hm
    · exact le_max_left _ _
    · exact le_trans (le_maxOf hm) (le_max_right _ _)

/-- Membership in a `groupAgg` result: the key comes from some input row,
and the value is the aggregate over that key's group. -/
theorem groupAgg_mem_iff [DecidableEq κ] {key : α → κ} {val : α → ℚ}
    {agg : List ℚ → ℚ} {l : List α} {p : κ × ℚ} :
    p ∈ groupAgg key val agg l ↔
      (∃ x ∈ l, key x = p.1) ∧
        p.2 = agg ((l.filter (fun x => decide (key x = p.1))).map val) := by
  unfold groupAgg
  rw [List.mem_map]
  constructor
  · rintro ⟨k, hk, rfl⟩
    rw [List.mem_dedup, List.mem_map] at hk
    obtain ⟨x, hx, hkey⟩ := hk
    exact ⟨⟨x, hx, hkey⟩, rfl⟩
  · rintro ⟨⟨x, hx, hkey⟩, hval⟩
    refine ⟨p.1, ?_, ?_⟩
    · rw [List.mem_dedup, List.mem_map]
      exact ⟨x, hx, hkey⟩
    · exact Prod.ext rfl hval.symm

/-- `sortByDesc` sorts descending on the key `f`. -/
theorem sorted_sortByDesc (f : α → ℚ) (l : List α) :
    (sortByDesc f l).Sorted (fun a b => f b ≤ f a) := by
  haveI : IsTotal α (fun a b => f b ≤ f a) := ⟨fun a b => le_total (f b) (f a)⟩
  haveI : IsTrans α (fun a b => f b ≤ f a) := ⟨fun _ _ _ h1 h2 => le_trans h2 h1⟩
  exact List.sorted_insertionSort _ l

/-- `sortByDesc` permutes, hence preserves membership. -/
theorem mem_sortByDesc {f : α → ℚ} {l : List α} {x : α} :
    x ∈ sortByDesc f l ↔ x ∈ l :=
  List.mem_insertionSort _

/-! ## Theorems about the pipeline runner -/

/-- **C2.** For every integer month argument `m`, the output file written by
the pipeline runner contains the entire unfiltered 12-row table, regardless
of `m`; only the file name embeds `m`. -/
theorem written_file_is_full_table (m : Int) (fs : FileSys) :
    fsRead (pipelineWithMonth m fs).2 (outputName m) = some monthTable ∧
      monthTable.length = 12 ∧
      outputName m =
        "01-docker-terraform/docker-sql/pipeline/output_" ++ toString m ++ ".parquet" := by
  refine ⟨?_, rfl, rfl⟩
  simp [pipelineWithMonth, fsWrite, fsRead]

/-- **C3.** For every integer month `m` with `1 ≤ m ≤ 12`, the printed
filtered subset contains exactly one row, and that row's `month` equals `m`. -/
theorem filtered_subset_unique (m : Int) (fs : FileSys) (h1 : 1 ≤ m) (h2 : m ≤ 12) :
    (pipelineWithMonth m fs).1.printedSubset.length = 1 ∧
      ∀ r ∈ (pipelineWithMonth m fs).1.printedSubset, r.month = m := by
  have hsub : (pipelineWithMonth m fs).1.printedSubset = filteredMonth m := rfl
  rw [hsub]
  constructor
  · interval_cases m <;> decide
  · intro r hr
    simp only [filteredMonth, List.mem_filter, decide_eq_true_eq] at hr
    exact hr.2

/-- Witness for C3 at `m = 7`. -/
theorem filtered_subset_unique_witness :
    (1 : Int) ≤ 7 ∧
      ((pipelineWithMonth 7 []).1.printedSubset.length = 1 ∧
        ∀ r ∈ (pipelineWithMonth 7 []).1.printedSubset, r.month = 7) :=
  ⟨by decide, filtered_subset_unique 7 [] (by decide) (by decide)⟩

/-- **C4.** If the pipeline runner's positional argument is missing or does
not parse as an integer, the run terminates with an error and the
filesystem is unchanged: no output file is written. -/
theorem bad_argument_writes_nothing (argv : List String) (fs : FileSys)
    (h : argv[1]?.bind pyIntParse = none) :
    (∃ e, (runPipeline argv fs).1 = Except.error e) ∧ (runPipeline argv fs).2 = fs := by
  match harg : argv[1]? with
  | none =>
    exact ⟨⟨PipelineError.indexError, by simp [runPipeline, harg]⟩, by simp [runPipeline, harg]⟩
  | some s =>
    rw [harg, Option.some_bind] at h
    exact ⟨⟨PipelineError.valueError, by simp [runPipeline, harg, h]⟩,
      by simp [runPipeline, harg, h]⟩

/-- Witness for C4: a missing argument and a non-numeric argument, both on a
concrete filesystem. -/
theorem bad_argument_writes_nothing_witness :
    ((["pipeline.py"] : List String)[1]?.bind pyIntParse = none ∧
      (∃ e, (runPipeline ["pipeline.py"] []).1 = Except.error e) ∧
        (runPipeline ["pipeline.py"] []).2 = []) ∧
    ((["pipeline.py", "abc"] : List String)[1]?.bind pyIntParse = none ∧
      (∃ e, (runPipeline ["pipeline.py", "abc"] []).1 = Except.error e) ∧
        (runPipeline ["pipeline.py", "abc"] []).2 = []) :=
  ⟨⟨by decide, bad_argument_writes_nothing ["pipeline.py"] [] (by decide)⟩,
   ⟨by decide, bad_argument_writes_nothing ["pipeline.py", "abc"] [] (by decide)⟩⟩

/-- **C10.** For an integer argument `m` outside 1–12, the run still
completes: the printed subset is empty, yet the full 12-row table is
written to the file named with `m`. -/
theorem out_of_range_month_still_writes (m : Int) (fs : FileSys)
    (h : m < 1 ∨ 12 < m) :
    (pipelineWithMonth m fs).1.printedSubset = [] ∧
      fsRead (pipelineWithMonth m fs).2 (outputName m) = some monthTable ∧
      monthTable.length = 12 := by
  refine ⟨?_, ?_, rfl⟩
  · simp only [pipelineWithMonth]
    rw [List.filter_eq_nil_iff]
    intro r hr
    fin_cases hr <;> simp <;> omega
  · simp [pipelineWithMonth, fsWrite, fsRead]

/-- Witness for C10 at `m = 13`. -/
theorem out_of_range_month_still_writes_witness :
    ((13 : Int) < 1 ∨ 12 < (13 : Int)) ∧
      ((pipelineWithMonth 13 []).1.printedSubset = [] ∧
        fsRead (pipelineWithMonth 13 []).2 (outputName 13) = some monthTable ∧
        monthTable.length = 12) :=
  ⟨by decide, out_of_range_month_still_writes 13 [] (by decide)⟩

/-! ## Theorems about the ingestion script -/

/-- **C5.** The ingestion script is idempotent on database contents:
running it twice over the same source files leaves each destination table
with exactly the rows of its source file — the second run replaces rather
than appends, so row counts equal the source counts, not double. -/
theorem ingest_idempotent (trips : List Trip) (zs : List ZoneRow) (db : Database) :
    (ingestRun (some trips) (some zs)
        (ingestRun (some trips) (some zs) db).2).2 =
      (ingestRun (some trips) (some zs) db).2 ∧
    (ingestRun (some trips) (some zs)
        (ingestRun (some trips) (some zs) db).2).2.green_taxi_data = some trips ∧
    (ingestRun (some trips) (some zs)
        (ingestRun (some trips) (some zs) db).2).2.zones = some zs ∧
    tableRowCount (ingestRun (some trips) (some zs)
        (ingestRun (some trips) (some zs) db).2).2.green_taxi_data = trips.length ∧
    tableRowCount (ingestRun (some trips) (some zs)
        (ingestRun (some trips) (some zs) db).2).2.zones = zs.length :=
  ⟨rfl, rfl, rfl, rfl, rfl⟩

/-- **C6.** The two table loads are not atomic as a pair: if the zone file
is missing, the run fails after the trip load already succeeded, leaving a
mixed state — `green_taxi_data` replaced with the new rows, `zones` exactly
as it was — with nothing rolled back. -/
theorem ingest_not_atomic (trips : List Trip) (db : Database) :
    (ingestRun (some trips) none db).1 = Except.error IngestError.zoneFileMissing ∧
    (ingestRun (some trips) none db).2.green_taxi_data = some trips ∧
    (ingestRun (some trips) none db).2.zones = db.zones :=
  ⟨rfl, rfl, rfl⟩

end Zoomcamp

namespace Zoomcamp

/-! ## Theorems about the query script -/

/-- **C1 (counterexample).** On a concrete database state, the query script
does not execute five SQL statements: the trace of `main` contains four
query executions, not five. -/
theorem main_not_five_queries :
    ¬ (executedQueries (mainEvents [] []) ).length = 5 := by decide

/-- **C1 (amended).** The query script, on a successful run, executes
**four** fixed SQL statements (Q3, Q4, Q5, Q6) in sequence against the
database, printing each query and then its tabular result. -/
theorem main_executes_four_queries (trips : List Trip) (zs : List ZoneRow) :
    executedQueries (mainEvents trips zs) =
        [QueryId.q3, QueryId.q4, QueryId.q5, QueryId.q6] ∧
      (executedQueries (mainEvents trips zs)).length = 4 ∧
      mainEvents trips zs =
        [Event.printQuery QueryId.q3,
         Event.printResult QueryId.q3 (execQuery QueryId.q3 trips zs),
         Event.printQuery QueryId.q4,
         Event.printResult QueryId.q4 (execQuery QueryId.q4 trips zs),
         Event.printQuery QueryId.q5,
         Event.printResult QueryId.q5 (execQuery QueryId.q5 trips zs),
         Event.printQuery QueryId.q6,
         Event.printResult QueryId.q6 (execQuery QueryId.q6 trips zs)] :=
  ⟨rfl, rfl, rfl⟩

/-- **C7.** For every database state, Q5 and Q6 each return at most 5
rows, ordered descending by their aggregate column (summed
`total_amount` for Q5, maximum `tip_amount` for Q6). -/
theorem q5_q6_limit_and_order (trips : List Trip) (zs : List ZoneRow) :
    (q5 trips zs).length ≤ 5 ∧
      (q5 trips zs).Sorted (fun a b => b.2 ≤ a.2) ∧
      (q6 trips zs).length ≤ 5 ∧
      (q6 trips zs).Sorted (fun a b => b.2 ≤ a.2) :=
  ⟨List.length_take_le 5 _,
   List.Pairwise.sublist (List.take_sublist 5 _) (sorted_sortByDesc Prod.snd _),
   List.length_take_le 5 _,
   List.Pairwise.sublist (List.take_sublist 5 _) (sorted_sortByDesc Prod.snd _)⟩

/-- **C8.** If no trip satisfies Q3's `WHERE` clause (pickup within
November 2025 and distance at most 1), Q3 still returns exactly one result
row, whose count is 0 — not an empty result set. -/
theorem q3_count_zero_still_one_row (trips : List Trip)
    (h : ∀ t ∈ trips, q3pred t = false) :
    q3 trips = [0] ∧ (q3 trips).length = 1 := by
  refine ⟨?_, rfl⟩
  unfold q3
  have hc : trips.countP q3pred = 0 := by
    rw [List.countP_eq_zero]
    intro a ha
    simp [h a ha]
  rw [hc]

/-- Witness for C8 on a database holding one trip that fails the clause. -/
theorem q3_count_zero_still_one_row_witness :
    (∀ t ∈ [sampleMediumTrip], q3pred t = false) ∧
      (q3 [sampleMediumTrip] = [0] ∧ (q3 [sampleMediumTrip]).length = 1) :=
  ⟨by decide, q3_count_zero_still_one_row [sampleMediumTrip] (by decide)⟩

/-- The head of a descending sort's 1-element prefix dominates the whole
list on the sort key. -/
theorem take_one_sortByDesc_max {f : α → ℚ} {l : List α} {p : α}
    (hp : p ∈ (sortByDesc f l).take 1) : ∀ r ∈ l, f r ≤ f p := by
  cases hsl : sortByDesc f l with
  | nil => rw [hsl] at hp; simp at hp
  | cons a s' =>
    rw [hsl] at hp
    simp only [List.take_succ_cons, List.take_zero, List.mem_singleton] at hp
    subst hp
    intro r hr
    have hrs : r ∈ p :: s' := by rw [← hsl]; exact mem_sortByDesc.mpr hr
    have hsort := sorted_sortByDesc f l
    rw [hsl] at hsort
    rcases List.mem_cons.mp hrs with rfl | hm
    · exact le_refl _
    · exact (List.sorted_cons.mp hsort).1 r hm

/-- **C9.** Q4 ranges over exactly the trips of distance < 100 (adding a
trip of distance ≥ 100 never changes the result), groups them per pickup
day with the per-day maximum distance (each group row is the maximum over
its day and is attained by a trip of that day, and every qualifying trip's
day has a group row), and returns at most one row: a day whose per-day
maximum dominates all per-day maxima. -/
theorem q4_per_day_max (trips : List Trip) :
    (∀ t, (100 : ℚ) ≤ t.trip_distance → q4 (t :: trips) = q4 trips) ∧
      (q4 trips).length ≤ 1 ∧
      (∀ p ∈ q4 trips, p ∈ q4groups trips ∧ ∀ r ∈ q4groups trips, r.2 ≤ p.2) ∧
      (∀ p ∈ q4groups trips,
        (∃ t ∈ q4qual trips,
            t.lpep_pickup_datetime.date = p.1 ∧ t.trip_distance = p.2) ∧
          ∀ t ∈ q4qual trips, t.lpep_pickup_datetime.date = p.1 →
            t.trip_distance ≤ p.2) ∧
      (∀ t ∈ q4qual trips, ∃ p ∈ q4groups trips,
        p.1 = t.lpep_pickup_datetime.date) := by
  refine ⟨?_, List.length_take_le 1 _, ?_, ?_, ?_⟩
  · intro t ht
    have hq : q4qual (t :: trips) = q4qual trips := by
      unfold q4qual
      exact List.filter_cons_of_neg (by simpa using not_lt.mpr ht)
    unfold q4 q4groups
    rw [hq]
  · intro p hp
    refine ⟨mem_sortByDesc.mp ((List.take_sublist 1 _).subset hp), ?_⟩
    intro r hr
    exact take_one_sortByDesc_max hp r hr
  · intro p hp
    rw [q4groups, groupAgg_mem_iff] at hp
    obtain ⟨⟨x, hx, hkey⟩, hval⟩ := hp
    have hxG : x ∈ (q4qual trips).filter
        (fun t => decide (t.lpep_pickup_datetime.date = p.1)) :=
      List.mem_filter.mpr ⟨hx, by simp [hkey]⟩
    have hne : ((q4qual trips).filter
        (fun t => decide (t.lpep_pickup_datetime.date = p.1))).map
          (fun t => t.trip_distance) ≠ [] :=
      List.ne_nil_of_mem (List.mem_map_of_mem _ hxG)
    constructor
    · obtain ⟨t, htG, htv⟩ := List.mem_map.mp (maxOf_mem hne)
      obtain ⟨htq, htd⟩ := List.mem_filter.mp htG
      exact ⟨t, htq, by simpa using htd, by rw [hval]; exact htv⟩
    · intro t htq htd
      have htG : t ∈ (q4qual trips).filter
          (fun u => decide (u.lpep_pickup_datetime.date = p.1)) :=
        List.mem_filter.mpr ⟨htq, by simp [htd]⟩
      rw [hval]
      exact le_maxOf (List.mem_map_of_mem _ htG)
  · intro t ht
    refine ⟨(t.lpep_pickup_datetime.date,
      maxOf (((q4qual trips).filter
        (fun u => decide (u.lpep_pickup_datetime.date =
          t.lpep_pickup_datetime.date))).map (fun u => u.trip_distance))), ?_, rfl⟩
    rw [q4groups, groupAgg_mem_iff]
    exact ⟨⟨t, ht, rfl⟩, rfl⟩

/-- Witness for C9: a 150-mile trip is excluded from Q4. -/
theorem q4_per_day_max_witness :
    (100 : ℚ) ≤ sampleLongTrip.trip_distance ∧
      q4 (sampleLongTrip :: []) = q4 [] :=
  ⟨by decide, (q4_per_day_max []).1 sampleLongTrip (by decide)⟩

end Zoomcamp
